import Mathlib

/-!
Shallow embedding of the servers-manager repository (credential store,
SSH connection handle, remote file browser) together with proofs of the
interface-contract properties stated in its specification.

Source files embedded: src/credentials.py, src/ssh_connection.py,
src/file_browser.py.
-/

namespace Credentials

/-- A value inside a persisted "services" JSON array: either a string or a
value of some other JSON type.  get_services filters with isinstance(s, str),
so only the string/non-string distinction matters. -/
inductive SvcItem where
  | str (s : String)
  | nonstr
  deriving DecidableEq, Repr

/-- The "services" key of a persisted server record: missing, present but not
a JSON list, or a list of items.  add_server writes records without the key
(absent); set_services writes a list of strings. -/
inductive ServicesField where
  | absent
  | notAList
  | list (items : List SvcItem)
  deriving DecidableEq, Repr

/-- A stored server record, as written by CredentialManager.add_server:
host, username, password, port, plus the optional services key. -/
structure ServerRecord where
  host : String
  username : String
  password : String
  port : Int
  services : ServicesField
  deriving DecidableEq, Repr

/-- The Python dict self.servers, as an insertion-ordered association list. -/
abbrev ServerMap := List (String × ServerRecord)

/-- dict.get: first binding for the key, if any. -/
def lookupAL : ServerMap → String → Option ServerRecord
  | [], _ => none
  | (k, v) :: rest, key => if k = key then some v else lookupAL rest key

/-- dict assignment d[k] = v: replace in place if the key exists, else append. -/
def insertAL : ServerMap → String → ServerRecord → ServerMap
  | [], key, v => [(key, v)]
  | (k, v0) :: rest, key, v =>
    if k = key then (key, v) :: rest else (k, v0) :: insertAL rest key v

/-- del d[k]: drop the binding for the key. -/
def removeAL : ServerMap → String → ServerMap
  | [], _ => []
  | (k, v) :: rest, key => if k = key then rest else (k, v) :: removeAL rest key

/-- State of a CredentialManager: the in-memory server map plus a count of
save_data file writes, which tracks whether a mutation persisted anything. -/
structure CredState where
  servers : ServerMap
  writes : Nat
  deriving DecidableEq, Repr

/-- CredentialManager.add_server: store a fresh record holding exactly host,
username, password and port (no services key), then save_data. -/
def add_server (st : CredState) (name host username password : String)
    (port : Int) : CredState :=
  { servers := insertAL st.servers name
      { host := host, username := username, password := password,
        port := port, services := ServicesField.absent },
    writes := st.writes + 1 }

/-- CredentialManager.get_server: self.servers.get(name). -/
def get_server (st : CredState) (name : String) : Option ServerRecord :=
  lookupAL st.servers name

/-- CredentialManager.delete_server: delete and save only when the name is
present; otherwise do nothing. -/
def delete_server (st : CredState) (name : String) : CredState :=
  match lookupAL st.servers name with
  | some _ => { servers := removeAL st.servers name, writes := st.writes + 1 }
  | none => st

/-- CredentialManager.list_servers: sorted list of the stored names. -/
def list_servers (st : CredState) : List String :=
  (st.servers.map Prod.fst).insertionSort (· ≤ ·)

/-- The characters removed by the Python str.strip() default: the code
points for which str.isspace() is true (tab through carriage return, the
information separators 1C-1F, space, next line 85, no-break space A0, ogham
space 1680, the 2000-200A spaces, the 2028/2029 separators, 202F, 205F and
ideographic space 3000). -/
def isPySpace (c : Char) : Bool :=
  let n := c.toNat
  (0x09 ≤ n && n ≤ 0x0D) || n == 0x20 || (0x1C ≤ n && n ≤ 0x1F) ||
    n == 0x85 || n == 0xA0 || n == 0x1680 || (0x2000 ≤ n && n ≤ 0x200A) ||
    n == 0x2028 || n == 0x2029 || n == 0x202F || n == 0x205F || n == 0x3000

/-- Python str.strip(): remove leading and trailing whitespace. -/
def pyStrip (s : String) : String :=
  String.mk (((s.data.dropWhile isPySpace).reverse.dropWhile isPySpace).reverse)

/-- The normalization loop of CredentialManager.set_services: strip each
entry, drop empties, drop duplicates keeping the first occurrence.  seen is
the set of entries kept so far. -/
def normalizeServices : List String → List String → List String
  | [], _ => []
  | s :: rest, seen =>
    let t := pyStrip s
    if t ≠ "" ∧ t ∉ seen then t :: normalizeServices rest (t :: seen)
    else normalizeServices rest seen

/-- CredentialManager.set_services: no-op when the name is unknown; else
store the normalized list under the services key and save_data. -/
def set_services (st : CredState) (name : String) (services : List String) :
    CredState :=
  match lookupAL st.servers name with
  | none => st
  | some rec =>
    let norm := normalizeServices services []
    { servers := insertAL st.servers name
        { rec with services := ServicesField.list (norm.map SvcItem.str) },
      writes := st.writes + 1 }

/-- The filtering loop of CredentialManager.get_services: keep only string
items not seen before, preserving order. -/
def filterUniqueStrings : List SvcItem → List String → List String
  | [], _ => []
  | SvcItem.str s :: rest, seen =>
    if s ∈ seen then filterUniqueStrings rest seen
    else s :: filterUniqueStrings rest (s :: seen)
  | SvcItem.nonstr :: rest, seen => filterUniqueStrings rest seen

/-- CredentialManager.get_services: empty when the name is unknown or the
services key is missing or not a list; else the unique string items in order. -/
def get_services (st : CredState) (name : String) : List String :=
  match lookupAL st.servers name with
  | none => []
  | some rec =>
    match rec.services with
    | ServicesField.absent => []
    | ServicesField.notAList => []
    | ServicesField.list items => filterUniqueStrings items []

/-- A sample stored record, used to instantiate the contract theorems. -/
def sampleRecord : ServerRecord :=
  { host := "10.0.0.5", username := "ops", password := "x", port := 22,
    services := ServicesField.absent }

/-- A sample one-server store. -/
def sampleState : CredState := { servers := [("web1", sampleRecord)], writes := 0 }

/-- The empty store. -/
def emptyState : CredState := { servers := [], writes := 0 }

end Credentials

namespace SSHConn

/-- The transport object underlying a paramiko client; is_active is its
liveness flag. -/
structure Transport where
  active : Bool
  deriving DecidableEq, Repr

/-- A paramiko SSHClient as seen by SSHConnection: it may or may not have a
transport yet. -/
structure Client where
  transport : Option Transport
  deriving DecidableEq, Repr

/-- The SSHConnection handle: self.client is an optional client object. -/
structure Conn where
  client : Option Client
  deriving DecidableEq, Repr

/-- SSHConnection.disconnect: when a client is held, close it and set
self.client to None; otherwise do nothing. -/
def disconnect (c : Conn) : Conn :=
  match c.client with
  | some _ => { client := none }
  | none => c

/-- SSHConnection.is_connected: true exactly when a client is held, it has a
transport, and the transport is active. -/
def is_connected (c : Conn) : Bool :=
  match c.client with
  | some cl =>
    match cl.transport with
    | some t => t.active
    | none => false
  | none => false

end SSHConn

namespace Browser

/-- The file-type bits of a POSIX mode word (stat.S_IFMT). -/
def S_IFMT : Nat := 0o170000

/-- stat.S_ISDIR: the file-type bits equal S_IFDIR. -/
def S_ISDIR (mode : Nat) : Bool := mode &&& S_IFMT == 0o040000

/-- stat.S_ISLNK: the file-type bits equal S_IFLNK. -/
def S_ISLNK (mode : Nat) : Bool := mode &&& S_IFMT == 0o120000

/-- One permission character of RemoteFileBrowserFrame._perms_from_mode:
the letter when the bit is set in the mode, "-" otherwise. -/
def permChar (mode : Nat) (bit : Nat) (letter : Char) : Char :=
  if mode &&& bit ≠ 0 then letter else '-'

/-- RemoteFileBrowserFrame._perms_from_mode: file-type character followed by
the rwx triplets for user, group and other. -/
def perms_from_mode (mode : Nat) : String :=
  let ftype : Char :=
    if S_ISDIR mode then 'd' else if S_ISLNK mode then 'l' else '-'
  String.mk
    [ftype,
     permChar mode 0o400 'r', permChar mode 0o200 'w', permChar mode 0o100 'x',
     permChar mode 0o040 'r', permChar mode 0o020 'w', permChar mode 0o010 'x',
     permChar mode 0o004 'r', permChar mode 0o002 'w', permChar mode 0o001 'x']

/-- A raw attribute record returned by sftp.listdir_attr. -/
structure RawAttr where
  filename : String
  st_size : Int
  st_mode : Nat
  st_uid : Int
  st_gid : Int
  deriving DecidableEq, Repr

/-- A row displayed by list_directory: the tuple
(name, size, is_dir, date, owner, group, perms) built for each attr. -/
structure Entry where
  name : String
  size : Int
  isDir : Bool
  date : String
  owner : String
  group : String
  perms : String
  deriving DecidableEq, Repr

/-- The sort key ordering of list_directory: compare names through the
Python str.lower() case folding, taken as a parameter since the Unicode
folding table lives in the Python runtime, not in this repository. -/
def nameKeyLe (lower : String → String) (a b : Entry) : Prop :=
  lower a.name ≤ lower b.name

instance (lower : String → String) : DecidableRel (nameKeyLe lower) :=
  fun a b => inferInstanceAs (Decidable (lower a.name ≤ lower b.name))

instance (lower : String → String) : IsTotal Entry (nameKeyLe lower) :=
  ⟨fun a b => le_total (lower a.name) (lower b.name)⟩

instance (lower : String → String) : IsTrans Entry (nameKeyLe lower) :=
  ⟨fun _ _ _ => le_trans⟩

/-- The row list_directory builds for one attr.  Owner, group and date come
from the uid/gid caches and time formatting, passed in as resolution
functions since they live outside the listing logic. -/
def toEntry (ownerOf groupOf dateOf : RawAttr → String) (attr : RawAttr) :
    Entry :=
  { name := attr.filename, size := attr.st_size,
    isDir := S_ISDIR attr.st_mode, date := dateOf attr,
    owner := ownerOf attr, group := groupOf attr,
    perms := perms_from_mode attr.st_mode }

/-- The sequence of rows RemoteFileBrowserFrame.list_directory inserts into
the tree: entries split into directories and files in listing order, each
group sorted by lowered name (list.sort is a stable sort), directories
first.  lower is the str.lower() case folding the sort key applies. -/
def displayedEntries (lower : String → String)
    (ownerOf groupOf dateOf : RawAttr → String)
    (items : List RawAttr) : List Entry :=
  let dirs := (items.filter fun a => S_ISDIR a.st_mode).map
    (toEntry ownerOf groupOf dateOf)
  let files := (items.filter fun a => !S_ISDIR a.st_mode).map
    (toEntry ownerOf groupOf dateOf)
  dirs.insertionSort (nameKeyLe lower) ++ files.insertionSort (nameKeyLe lower)

end Browser

namespace Browser

/-- The message set in the status bar when a transfer is already running. -/
def busyMsg : String := "Another transfer is in progress. Please wait..."

/-- The widget state of RemoteFileBrowserFrame that the transfer entry
points read and write: whether an SFTP session is attached, the busy flag
_transfer_in_progress, the status-bar text and the enabled flag. -/
structure BrowserState where
  sftp_connected : Bool
  transfer_in_progress : Bool
  status : String
  enabled : Bool
  deriving DecidableEq, Repr

/-- Outcome of a call to prompt_and_upload. -/
inductive UploadResult where
  | notConnected
  | busy
  | cancelled
  | noTarget
  | dirCollision
  | overwriteDeclined
  | started
  deriving DecidableEq, Repr

/-- A stat result for an existing remote path. -/
structure StatAttr where
  st_mode : Nat
  st_size : Int
  deriving DecidableEq, Repr

/-- RemoteFileBrowserFrame.prompt_and_upload up to the point where the
background transfer thread is spawned.  External interactions are inputs:
chosenFile is the file-dialog result (none when cancelled), targetDir the
resolved remote directory (none when undetermined), statResult the stat of
the destination path (none when it raised, i.e. the path does not exist),
overwriteAnswer the reply to the overwrite prompt.  Returns the new widget
state, the outcome, and whether a transfer thread was started. -/
def prompt_and_upload (st : BrowserState) (chosenFile : Option String)
    (targetDir : Option String) (statResult : Option StatAttr)
    (overwriteAnswer : Bool) :
    BrowserState × UploadResult × Bool :=
  if !st.sftp_connected then (st, UploadResult.notConnected, false)
  else if st.transfer_in_progress then
    ({ st with status := busyMsg }, UploadResult.busy, false)
  else
    match chosenFile with
    | none => (st, UploadResult.cancelled, false)
    | some localPath =>
      match targetDir with
      | none => (st, UploadResult.noTarget, false)
      | some remoteDir =>
        let proceed : BrowserState × UploadResult × Bool :=
          ({ st with transfer_in_progress := true,
                     status := "Uploading " ++ localPath ++ " to " ++
                       remoteDir ++ "...",
                     enabled := false },
           UploadResult.started, true)
        match statResult with
        | some existing =>
          if S_ISDIR existing.st_mode then
            (st, UploadResult.dirCollision, false)
          else if !overwriteAnswer then
            (st, UploadResult.overwriteDeclined, false)
          else proceed
        | none => proceed

/-- Outcome of a call to prompt_and_download. -/
inductive DownloadResult where
  | notConnected
  | busy
  | noSelection
  | invalidSelection
  | cancelled
  | dirCollision
  | overwriteDeclined
  | started
  deriving DecidableEq, Repr

/-- A tree selection as prompt_and_download reads it: the item text and the
type column value. -/
structure Selection where
  name : String
  itemType : String
  deriving DecidableEq, Repr

/-- RemoteFileBrowserFrame.prompt_and_download up to the point where the
background transfer thread is spawned.  selection is the current tree
selection, savePath the save-dialog result, localExists and localIsDir the
filesystem checks on the chosen local path, overwriteAnswer the reply to the
overwrite prompt. -/
def prompt_and_download (st : BrowserState) (selection : Option Selection)
    (savePath : Option String) (localExists localIsDir : Bool)
    (overwriteAnswer : Bool) :
    BrowserState × DownloadResult × Bool :=
  if !st.sftp_connected then (st, DownloadResult.notConnected, false)
  else if st.transfer_in_progress then
    ({ st with status := busyMsg }, DownloadResult.busy, false)
  else
    match selection with
    | none => (st, DownloadResult.noSelection, false)
    | some sel =>
      if sel.itemType ≠ "File" then (st, DownloadResult.invalidSelection, false)
      else
        match savePath with
        | none => (st, DownloadResult.cancelled, false)
        | some _ =>
          if localExists && localIsDir then
            (st, DownloadResult.dirCollision, false)
          else if localExists && !overwriteAnswer then
            (st, DownloadResult.overwriteDeclined, false)
          else
            ({ st with transfer_in_progress := true,
                       status := "Downloading " ++ sel.name ++ "...",
                       enabled := false },
             DownloadResult.started, true)

/-- The editor state open_remote_file writes on success. -/
structure EditorState where
  content : String
  open_file_path : Option String
  dirty : Bool
  deriving DecidableEq, Repr

/-- Outcome of a call to open_remote_file. -/
inductive OpenResult where
  | notConnected
  | statFailed
  | isDirectory
  | tooLarge
  | binary
  | opened
  deriving DecidableEq, Repr

/-- The 2MB preview cap MAX_PREVIEW_BYTES of open_remote_file. -/
def MAX_PREVIEW_BYTES : Int := 2000000

/-- RemoteFileBrowserFrame.open_remote_file.  statResult is the stat of the
remote path (none when it raised), raw the bytes read from the file.
decodeStrict models bytes.decode(utf-8), returning none when a
UnicodeDecodeError would be raised; decodeReplace models
bytes.decode(utf-8, errors=replace), which always succeeds.  Returns the
new editor state and the outcome. -/
def open_remote_file (decodeStrict : List Nat → Option String)
    (decodeReplace : List Nat → String) (ed : EditorState)
    (sftp_connected : Bool) (remote_path : String)
    (statResult : Option StatAttr) (raw : List Nat) :
    EditorState × OpenResult :=
  if !sftp_connected then (ed, OpenResult.notConnected)
  else
    match statResult with
    | none => (ed, OpenResult.statFailed)
    | some attr =>
      if S_ISDIR attr.st_mode then (ed, OpenResult.isDirectory)
      else if attr.st_size > MAX_PREVIEW_BYTES then (ed, OpenResult.tooLarge)
      else if 0 ∈ raw then (ed, OpenResult.binary)
      else
        let text :=
          match decodeStrict raw with
          | some t => t
          | none => decodeReplace raw
        ({ content := text, open_file_path := some remote_path,
           dirty := false },
         OpenResult.opened)

end Browser

/-- A sample browser state with a live SFTP session and no transfer running. -/
def idleState : Browser.BrowserState :=
  { sftp_connected := true, transfer_in_progress := false, status := "",
    enabled := true }

/-- A sample browser state with a transfer currently in flight. -/
def busyState : Browser.BrowserState :=
  { sftp_connected := true, transfer_in_progress := true,
    status := "Uploading a to /tmp...", enabled := false }

/-- A sample stat result for a remote directory (mode 0o40755). -/
def dirAttr : Browser.StatAttr := { st_mode := 0o40755, st_size := 4096 }

/-- A sample stat result for a small regular file (mode 0o100644). -/
def fileAttrSmall : Browser.StatAttr := { st_mode := 0o100644, st_size := 5 }

/-- A sample stat result for an oversized regular file. -/
def fileAttrBig : Browser.StatAttr :=
  { st_mode := 0o100644, st_size := 2000001 }

/-- A sample editor state. -/
def edState : Browser.EditorState :=
  { content := "", open_file_path := none, dirty := false }

/-- A strict decoder sample that fails on every input. -/
def decodeFailing : List Nat → Option String := fun _ => none

/-- A replacement decoder sample with a fixed output. -/
def decodeConst : List Nat → String := fun _ => "x"

namespace Credentials

theorem lookupAL_insertAL_self (m : ServerMap) (k : String) (v : ServerRecord) :
    lookupAL (insertAL m k v) k = some v := by
  induction m with
  | nil => simp [insertAL, lookupAL]
  | cons hd tl ih =>
    obtain ⟨k0, v0⟩ := hd
    by_cases h : k0 = k
    · subst h
      simp [insertAL, lookupAL]
    · simp [insertAL, lookupAL, h, ih]

theorem filterUniqueStrings_normalize (l : List String) (seen : List String) :
    filterUniqueStrings ((normalizeServices l seen).map SvcItem.str) seen =
      normalizeServices l seen := by
  induction l generalizing seen with
  | nil => simp [normalizeServices, filterUniqueStrings]
  | cons s rest ih =>
    simp only [normalizeServices]
    by_cases h : pyStrip s ≠ "" ∧ pyStrip s ∉ seen
    · simp only [if_pos h, List.map_cons, filterUniqueStrings, if_neg h.2, ih]
    · simp only [if_neg h, ih]

end Credentials


section ClaimTheorems

open Credentials SSHConn Browser

/-- C1: for every server name and every host, username, password and port,
add_server followed by get_server on that name returns a record whose host,
username, password and port fields equal the values that were added. -/
theorem add_then_get_server_roundtrip (st : CredState)
    (name host username password : String) (port : Int) :
    ∃ r, get_server (add_server st name host username password port) name =
        some r ∧
      r.host = host ∧ r.username = username ∧ r.password = password ∧
      r.port = port := by
  refine ⟨{ host := host, username := username, password := password,
            port := port, services := ServicesField.absent },
    ?_, rfl, rfl, rfl, rfl⟩
  unfold get_server add_server
  exact lookupAL_insertAL_self _ _ _

/-- C2: delete_server on a name absent from the store is a no-op: the state
is returned unchanged, so the in-memory map is untouched and no file write
happens (the write counter is unchanged). -/
theorem delete_server_absent_noop (st : CredState) (name : String)
    (habs : lookupAL st.servers name = none) :
    delete_server st name = st ∧
    (delete_server st name).servers = st.servers ∧
    (delete_server st name).writes = st.writes := by
  have h : delete_server st name = st := by
    unfold delete_server
    rw [habs]
  exact ⟨h, by rw [h], by rw [h]⟩

theorem delete_server_absent_noop_witness :
    lookupAL sampleState.servers "db2" = none ∧
    delete_server sampleState "db2" = sampleState :=
  ⟨by decide, (delete_server_absent_noop sampleState "db2" (by decide)).1⟩

/-- C3: set_services on an unknown name leaves the state unchanged; on a
known name it persists the input list with every entry stripped of
surrounding whitespace, empties dropped and duplicates removed keeping the
first occurrence, and get_services then returns exactly that normalized
list in first-occurrence order. -/
theorem set_services_normalizes (st : CredState) (name : String)
    (l : List String) :
    (lookupAL st.servers name = none → set_services st name l = st) ∧
    (∀ r0, lookupAL st.servers name = some r0 →
      lookupAL (set_services st name l).servers name =
        some { r0 with services :=
          ServicesField.list ((normalizeServices l []).map SvcItem.str) } ∧
      get_services (set_services st name l) name = normalizeServices l []) := by
  constructor
  · intro habs
    unfold set_services
    rw [habs]
  · intro r0 hres
    have hset : set_services st name l =
        { servers := insertAL st.servers name
            { r0 with services :=
              ServicesField.list ((normalizeServices l []).map SvcItem.str) },
          writes := st.writes + 1 } := by
      unfold set_services
      rw [hres]
    have hlook : lookupAL (set_services st name l).servers name =
        some { r0 with services :=
          ServicesField.list ((normalizeServices l []).map SvcItem.str) } := by
      rw [hset]
      exact lookupAL_insertAL_self _ _ _
    refine ⟨hlook, ?_⟩
    unfold get_services
    rw [hlook]
    exact filterUniqueStrings_normalize l []

theorem set_services_normalizes_witness :
    set_services emptyState "web1" ["nginx"] = emptyState ∧
    get_services (set_services sampleState "web1" ["nginx", "nginx", "  "])
      "web1" = ["nginx"] := by
  constructor
  · exact (set_services_normalizes emptyState "web1" ["nginx"]).1 (by decide)
  · have h := ((set_services_normalizes sampleState "web1"
      ["nginx", "nginx", "  "]).2 sampleRecord (by decide)).2
    rw [h]
    decide

/-- C10: add_server on a name already present replaces the whole record with
one holding only host, username, password and port: the services key is
gone, so get_services afterwards returns the empty list. -/
theorem add_server_discards_services (st : CredState)
    (name host username password : String) (port : Int) :
    get_server (add_server st name host username password port) name =
      some { host := host, username := username, password := password,
             port := port, services := ServicesField.absent } ∧
    get_services (add_server st name host username password port) name = [] := by
  have h : get_server (add_server st name host username password port) name =
      some { host := host, username := username, password := password,
             port := port, services := ServicesField.absent } := by
    unfold get_server add_server
    exact lookupAL_insertAL_self _ _ _
  refine ⟨h, ?_⟩
  unfold get_services
  unfold get_server at h
  rw [h]

/-- C8: disconnect is idempotent, is safe when no client is held, and after
any disconnect is_connected reports false. -/
theorem disconnect_idempotent_safe (c : Conn) :
    disconnect (disconnect c) = disconnect c ∧
    disconnect { client := none } = { client := none } ∧
    is_connected (disconnect c) = false := by
  cases c with
  | mk client =>
    cases client <;> simp [disconnect, is_connected]

end ClaimTheorems

section TransferTheorems

open Browser

/-- C5: when the destination already holds a directory with the same name as
the chosen local file, prompt_and_upload reports the collision and stops:
the widget state is unchanged, so the busy flag stays clear, and no transfer
thread is started. -/
theorem upload_blocked_by_dir_collision (st : BrowserState)
    (localPath remoteDir : String) (existing : StatAttr)
    (overwriteAnswer : Bool) (hconn : st.sftp_connected = true)
    (hfree : st.transfer_in_progress = false)
    (hdir : S_ISDIR existing.st_mode = true) :
    prompt_and_upload st (some localPath) (some remoteDir) (some existing)
        overwriteAnswer = (st, UploadResult.dirCollision, false) := by
  simp [prompt_and_upload, hconn, hfree, hdir]

theorem upload_blocked_by_dir_collision_witness :
    prompt_and_upload idleState (some "a.txt") (some "/tmp") (some dirAttr)
        true = (idleState, UploadResult.dirCollision, false) :=
  upload_blocked_by_dir_collision idleState "a.txt" "/tmp" dirAttr true
    (by decide) (by decide) (by decide)

/-- C6: while the busy flag is set on a connected browser, prompt_and_upload
and prompt_and_download both return right after setting the busy status
message: the state is otherwise untouched, in particular the flag stays set,
and no second transfer thread is started, so the transfer in flight is
unaffected. -/
theorem busy_flag_blocks_second_transfer (st : BrowserState)
    (chosenFile targetDir : Option String) (statResult : Option StatAttr)
    (overwriteAnswer : Bool) (selection : Option Selection)
    (savePath : Option String) (localExists localIsDir overwriteAnswer2 : Bool)
    (hconn : st.sftp_connected = true)
    (hbusy : st.transfer_in_progress = true) :
    prompt_and_upload st chosenFile targetDir statResult overwriteAnswer =
      ({ st with status := busyMsg }, UploadResult.busy, false) ∧
    prompt_and_download st selection savePath localExists localIsDir
        overwriteAnswer2 =
      ({ st with status := busyMsg }, DownloadResult.busy, false) := by
  constructor
  · simp [prompt_and_upload, hconn, hbusy]
  · simp [prompt_and_download, hconn, hbusy]

theorem busy_flag_blocks_second_transfer_witness :
    prompt_and_upload busyState (some "b.txt") (some "/tmp") none true =
      ({ busyState with status := busyMsg }, UploadResult.busy, false) ∧
    prompt_and_download busyState
        (some { name := "b.txt", itemType := "File" }) (some "/home/b.txt")
        false false true =
      ({ busyState with status := busyMsg }, DownloadResult.busy, false) :=
  busy_flag_blocks_second_transfer busyState (some "b.txt") (some "/tmp")
    none true (some { name := "b.txt", itemType := "File" })
    (some "/home/b.txt") false false true (by decide) (by decide)

/-- C7: open_remote_file on a non-directory remote file rejects it without
touching the editor when the reported size exceeds the 2MB cap, or when the
content holds a NUL byte; otherwise it loads the strict UTF-8 decoding of
the content, or the replacement-character decoding when strict decoding
fails, into the editor. -/
theorem open_remote_file_cap_nul_decode
    (decodeStrict : List Nat → Option String)
    (decodeReplace : List Nat → String) (ed : EditorState)
    (remote_path : String) (attr : StatAttr) (raw : List Nat)
    (hnotdir : S_ISDIR attr.st_mode = false) :
    (attr.st_size > MAX_PREVIEW_BYTES →
      open_remote_file decodeStrict decodeReplace ed true remote_path
          (some attr) raw = (ed, OpenResult.tooLarge)) ∧
    (attr.st_size ≤ MAX_PREVIEW_BYTES → 0 ∈ raw →
      open_remote_file decodeStrict decodeReplace ed true remote_path
          (some attr) raw = (ed, OpenResult.binary)) ∧
    (attr.st_size ≤ MAX_PREVIEW_BYTES → 0 ∉ raw →
      open_remote_file decodeStrict decodeReplace ed true remote_path
          (some attr) raw =
        ({ content := match decodeStrict raw with
                      | some t => t
                      | none => decodeReplace raw,
           open_file_path := some remote_path, dirty := false },
         OpenResult.opened)) := by
  refine ⟨fun hbig => ?_, fun hsz hnul => ?_, fun hsz hnonul => ?_⟩
  · simp [open_remote_file, hnotdir, hbig]
  · simp [open_remote_file, hnotdir, not_lt.mpr hsz, hnul]
  · simp [open_remote_file, hnotdir, not_lt.mpr hsz, hnonul]

theorem open_remote_file_cap_nul_decode_witness :
    open_remote_file decodeFailing decodeConst edState true "/etc/f"
        (some fileAttrBig) [104, 105] = (edState, OpenResult.tooLarge) ∧
    open_remote_file decodeFailing decodeConst edState true "/etc/f"
        (some fileAttrSmall) [104, 0] = (edState, OpenResult.binary) ∧
    open_remote_file decodeFailing decodeConst edState true "/etc/f"
        (some fileAttrSmall) [104, 105] =
      ({ content := "x", open_file_path := some "/etc/f", dirty := false },
       OpenResult.opened) := by
  refine ⟨?_, ?_, ?_⟩
  · exact (open_remote_file_cap_nul_decode decodeFailing decodeConst edState
      "/etc/f" fileAttrBig [104, 105] (by decide)).1 (by decide)
  · exact (open_remote_file_cap_nul_decode decodeFailing decodeConst edState
      "/etc/f" fileAttrSmall [104, 0] (by decide)).2.1 (by decide) (by decide)
  · exact (open_remote_file_cap_nul_decode decodeFailing decodeConst edState
      "/etc/f" fileAttrSmall [104, 105] (by decide)).2.2 (by decide)
      (by decide)

end TransferTheorems

section PermTheorems

open Browser

/-- C9: for every mode, _perms_from_mode yields exactly ten characters: the
file-type character, which is d for a directory, l for a symbolic link and -
otherwise, followed by the rwx triplets for user, group and other, where
each position shows its letter exactly when the matching mode bit is set. -/
theorem perms_from_mode_format (mode : Nat) :
    (perms_from_mode mode).length = 10 ∧
    (perms_from_mode mode).data =
      [if S_ISDIR mode then 'd' else if S_ISLNK mode then 'l' else '-',
       if mode &&& 0o400 ≠ 0 then 'r' else '-',
       if mode &&& 0o200 ≠ 0 then 'w' else '-',
       if mode &&& 0o100 ≠ 0 then 'x' else '-',
       if mode &&& 0o040 ≠ 0 then 'r' else '-',
       if mode &&& 0o020 ≠ 0 then 'w' else '-',
       if mode &&& 0o010 ≠ 0 then 'x' else '-',
       if mode &&& 0o004 ≠ 0 then 'r' else '-',
       if mode &&& 0o002 ≠ 0 then 'w' else '-',
       if mode &&& 0o001 ≠ 0 then 'x' else '-'] :=
  ⟨rfl, rfl⟩

end PermTheorems

section ListingTheorems

open Browser

theorem isDir_of_mem_sorted_dirs (lower : String → String)
    (ownerOf groupOf dateOf : RawAttr → String)
    (items : List RawAttr) (e : Entry)
    (he : e ∈ ((items.filter fun a => S_ISDIR a.st_mode).map
      (toEntry ownerOf groupOf dateOf)).insertionSort (nameKeyLe lower)) :
    e.isDir = true := by
  rw [List.mem_insertionSort] at he
  obtain ⟨a, ha, rfl⟩ := List.mem_map.1 he
  have hdir := (List.mem_filter.1 ha).2
  simp [toEntry, hdir]

theorem not_isDir_of_mem_sorted_files (lower : String → String)
    (ownerOf groupOf dateOf : RawAttr → String) (items : List RawAttr)
    (e : Entry)
    (he : e ∈ ((items.filter fun a => !S_ISDIR a.st_mode).map
      (toEntry ownerOf groupOf dateOf)).insertionSort (nameKeyLe lower)) :
    e.isDir = false := by
  rw [List.mem_insertionSort] at he
  obtain ⟨a, ha, rfl⟩ := List.mem_map.1 he
  have hfile := (List.mem_filter.1 ha).2
  rw [Bool.not_eq_true'] at hfile
  simp [toEntry, hfile]

/-- C4: for every case folding used as the sort key, the rows list_directory
displays are a permutation of the rows built from the raw listing, every
directory row comes before every file row, and any two rows in the same
group appear in case-insensitive name order, i.e. ordered by their folded
names. -/
theorem list_directory_dirs_first_sorted (lower : String → String)
    (ownerOf groupOf dateOf : RawAttr → String) (items : List RawAttr) :
    (displayedEntries lower ownerOf groupOf dateOf items).Perm
      (items.map (toEntry ownerOf groupOf dateOf)) ∧
    (displayedEntries lower ownerOf groupOf dateOf items).Pairwise
      (fun a b => (b.isDir = true → a.isDir = true) ∧
        (a.isDir = b.isDir → nameKeyLe lower a b)) := by
  constructor
  · unfold displayedEntries
    refine (List.Perm.append (List.perm_insertionSort _ _)
      (List.perm_insertionSort _ _)).trans ?_
    rw [← List.map_append]
    exact (List.filter_append_perm _ items).map _
  · unfold displayedEntries
    rw [List.pairwise_append]
    refine ⟨?_, ?_, ?_⟩
    · refine List.Pairwise.imp_of_mem ?_ (List.sorted_insertionSort _ _)
      intro a b ha hb hle
      exact ⟨fun _ => isDir_of_mem_sorted_dirs lower ownerOf groupOf dateOf
        items a ha, fun _ => hle⟩
    · refine List.Pairwise.imp_of_mem ?_ (List.sorted_insertionSort _ _)
      intro a b ha hb hle
      refine ⟨fun hb' => ?_, fun _ => hle⟩
      rw [not_isDir_of_mem_sorted_files lower ownerOf groupOf dateOf items
        b hb] at hb'
      exact absurd hb' (by simp)
    · intro a ha b hb
      have haDir :=
        isDir_of_mem_sorted_dirs lower ownerOf groupOf dateOf items a ha
      have hbFile :=
        not_isDir_of_mem_sorted_files lower ownerOf groupOf dateOf items b hb
      refine ⟨fun _ => haDir, fun h => ?_⟩
      rw [haDir, hbFile] at h
      exact absurd h (by simp)

end ListingTheorems
